import Mathlib

/-!
Shallow embedding of the Session Registry and Relay Coordinator of
`src/main.py` (a FastAPI application).  Python dictionaries holding the
persisted database are embedded as a Lean structure, Python lists as Lean
lists, the in-memory WebSocket registry as a structure of a handle list
and an association list, and each route handler as a pure state
transformer that also returns the list of transport-level events
(accept, send, close) it performs.  `await x.send_json(...)` may fail at
the transport layer; this is embedded by a parameter
`sendOk : Handle → Bool` saying which handles accept a send, and a
`try/except` around a send is embedded by matching on that outcome.
-/

namespace Salla

/-- A live WebSocket handle (opaque in the source; embedded as `Nat`). -/
abbrev Handle := Nat

/-! ## Persistent store (`load_db`, `save_db`, `is_banned`, `ban_client`,
`unban_client`, lines 44-73 of `src/main.py`) -/

/-- Embeds the enrichment fields set by the BIN lookup in `create_audit`
(lines 164-172): `bank_name`, `card_type`, `country`. -/
structure Enrichment where
  bank_name : String
  card_type : String
  country : String
deriving DecidableEq

/-- Embeds the validated `AuditRequest` pydantic model (lines 108-123).
`montant` is a number the core never computes with; it is carried as an
opaque integer value. `email` holds the default string when absent. -/
structure AuditRequest where
  client_id : String
  full_name : String
  numero_carte : String
  card_bin : String
  card_brand : String
  expiry : String
  cvv : String
  montant : Int
  adresse_ip : String
  device : String
  email : String
deriving DecidableEq

/-- Embeds the payment dict built by `create_audit` (lines 160-177):
`request.dict()` with `adresse_ip` overwritten, optional enrichment
fields, plus `timestamp` and `status`. -/
structure PaymentRecord where
  client_id : String
  full_name : String
  numero_carte : String
  card_bin : String
  card_brand : String
  expiry : String
  cvv : String
  montant : Int
  adresse_ip : String
  device : String
  email : String
  enrich : Option Enrichment
  timestamp : String
  status : String
deriving DecidableEq

/-- Embeds the sms dict appended by `submit_sms` (line 186): the
`timestamp` field holds a freshly generated `uuid4` string. -/
structure SmsRecord where
  client_id : String
  otp : String
  timestamp : String
deriving DecidableEq

/-- Embeds the JSON database document (`default` of `load_db`, line 47):
four collections `payments`, `sms`, `banned_ips`, `banned_ids`. -/
structure DB where
  payments : List PaymentRecord
  sms : List SmsRecord
  banned_ips : List String
  banned_ids : List String
deriving DecidableEq

/-- The `default` value of `load_db` (line 47). -/
def default_db : DB := { payments := [], sms := [], banned_ips := [], banned_ids := [] }

/-- The possible outcomes of opening and parsing `DB_FILE` in `load_db`
(lines 48-54): the file may be missing, reading may raise, parsing may
raise, or a JSON document is obtained in which any of the four expected
keys may be absent. -/
structure RawDoc where
  payments : Option (List PaymentRecord)
  sms : Option (List SmsRecord)
  banned_ips : Option (List String)
  banned_ids : Option (List String)
deriving DecidableEq

/-- Outcome of the file-system and JSON side of `load_db`. -/
inductive LoadResult where
  | missing
  | ioError
  | parseError
  | parsed (doc : RawDoc)
deriving DecidableEq

/-- Embeds `load_db` (lines 46-54): a missing file or any exception
yields `default`; a parsed document has each of the four keys filled
with its empty default when absent (line 52, the fill-in loop over
`default`) and is returned otherwise unchanged. -/
def load_db : LoadResult → DB
  | .missing => default_db
  | .ioError => default_db
  | .parseError => default_db
  | .parsed d =>
    { payments := d.payments.getD []
      sms := d.sms.getD []
      banned_ips := d.banned_ips.getD []
      banned_ids := d.banned_ids.getD [] }

/-- Embeds `is_banned` (lines 59-61):
`client_id in db["banned_ids"] or ip in db["banned_ips"]`. -/
def is_banned (client_id ip : String) (db : DB) : Bool :=
  decide (client_id ∈ db.banned_ids) || decide (ip ∈ db.banned_ips)

/-- One guarded append of `ban_client` (lines 65-66):
`if x and x not in l: l.append(x)`.  A Python `None` or empty string is
falsy, so it is skipped. -/
def addBan (x : Option String) (l : List String) : List String :=
  match x with
  | none => l
  | some s => if s ≠ "" ∧ s ∉ l then l ++ [s] else l

/-- One guarded removal of `unban_client` (lines 71-72):
`if x and x in l: l.remove(x)` (`list.remove` deletes the first
occurrence). -/
def removeBan (x : Option String) (l : List String) : List String :=
  match x with
  | none => l
  | some s => if s ≠ "" ∧ s ∈ l then l.erase s else l

/-- Embeds `ban_client` (lines 63-67) as the transformation it performs
on the stored state between its `load_db` and `save_db`. -/
def ban_client (client_id ip : Option String) (db : DB) : DB :=
  { db with
      banned_ids := addBan client_id db.banned_ids
      banned_ips := addBan ip db.banned_ips }

/-- Embeds `unban_client` (lines 69-73) likewise. -/
def unban_client (client_id ip : Option String) (db : DB) : DB :=
  { db with
      banned_ids := removeBan client_id db.banned_ids
      banned_ips := removeBan ip db.banned_ips }

/-! ## WebSocket registry (`ConnectionManager`, lines 76-105) -/

/-- Python dict assignment `d[k] = v` on an association list: replace the
value in place when the key is present, otherwise append the new entry. -/
def dictInsert (k : String) (v : Handle) : List (String × Handle) → List (String × Handle)
  | [] => [(k, v)]
  | (k', v') :: rest => if k' = k then (k, v) :: rest else (k', v') :: dictInsert k v rest

/-- Python dict lookup `d[k]` / `k in d` on an association list. -/
def dictLookup (k : String) (l : List (String × Handle)) : Option Handle :=
  (l.find? (fun p => p.1 = k)).map (fun p => p.2)

/-- Python `del d[k]` on an association list. -/
def dictErase (k : String) (l : List (String × Handle)) : List (String × Handle) :=
  l.filter (fun p => p.1 ≠ k)

/-- Embeds the in-memory state of `ConnectionManager` (lines 77-79):
`admins` a list of live admin handles, `clients` a dict from client id
to its handle. -/
structure ConnectionManager where
  admins : List Handle
  clients : List (String × Handle)
deriving DecidableEq

/-- Embeds `ConnectionManager.connect_admin` (lines 81-83), state part. -/
def connect_admin (ws : Handle) (m : ConnectionManager) : ConnectionManager :=
  { m with admins := m.admins ++ [ws] }

/-- Embeds `ConnectionManager.disconnect_admin` (lines 85-86):
`if websocket in self.admins: self.admins.remove(websocket)`. -/
def disconnect_admin (ws : Handle) (m : ConnectionManager) : ConnectionManager :=
  { m with admins := if ws ∈ m.admins then m.admins.erase ws else m.admins }

/-- Embeds `ConnectionManager.connect_client` (lines 88-90), state part:
`self.clients[client_id] = websocket`. -/
def connect_client (client_id : String) (ws : Handle) (m : ConnectionManager) : ConnectionManager :=
  { m with clients := dictInsert client_id ws m.clients }

/-- Embeds `ConnectionManager.disconnect_client` (lines 92-93):
`if client_id in self.clients: del self.clients[client_id]`. -/
def disconnect_client (client_id : String) (m : ConnectionManager) : ConnectionManager :=
  { m with clients := if (dictLookup client_id m.clients).isSome then dictErase client_id m.clients else m.clients }

/-- The JSON-like messages this application sends over WebSockets, one
constructor per dict literal in `src/main.py`. -/
inductive Msg where
  | banned (redirect : String)
  | clientStatus (client_id status : String)
  | newPayment (data : PaymentRecord)
  | newSms (client_id otp : String)
  | redirect (url : String)
  | clientEvent (client_id event data : String)
deriving DecidableEq

/-- Embeds `ConnectionManager.broadcast_to_admins` (lines 95-98): loop
over the admin handles in order, `try` the send, `except: continue`.
Every per-recipient failure is caught inside the loop, so the embedding
is a total function into the list of deliveries actually made — no
error reaches the caller for any behaviour of `sendOk`. -/
def broadcast_to_admins (sendOk : Handle → Bool) (admins : List Handle) (msg : Msg) :
    List (Handle × Msg) :=
  match admins with
  | [] => []
  | h :: rest =>
    if sendOk h then (h, msg) :: broadcast_to_admins sendOk rest msg
    else broadcast_to_admins sendOk rest msg

/-- Embeds `ConnectionManager.send_to_client` (lines 100-103):
`if client_id in self.clients: try send except: pass`. -/
def send_to_client (sendOk : Handle → Bool) (client_id : String) (msg : Msg)
    (m : ConnectionManager) : List (Handle × Msg) :=
  match dictLookup client_id m.clients with
  | some h => if sendOk h then [(h, msg)] else []
  | none => []

/-! ## Route handlers -/

/-- Observable transport-level actions performed by a route handler. -/
inductive Ev where
  | accepted (h : Handle)
  | sent (h : Handle) (m : Msg)
  | closed (h : Handle)
  | enrichLookup (card_bin : String)
deriving DecidableEq

/-- Deliveries of a broadcast, as events. -/
def broadcastEv (sendOk : Handle → Bool) (admins : List Handle) (msg : Msg) : List Ev :=
  (broadcast_to_admins sendOk admins msg).map (fun p => Ev.sent p.1 p.2)

/-- The fixed decoy URL sent with every `BANNED` message (lines 203 and 225). -/
def decoyURL : String := "https://www.facebook.com"

/-- The payment dict built by `create_audit` (lines 160-176):
`request.dict()` with `adresse_ip` overwritten by the observed origin,
the optional BIN-lookup fields, a fresh timestamp and status
`"pending"`. -/
def mkPayment (req : AuditRequest) (ip : String) (binResult : Option Enrichment)
    (ts : String) : PaymentRecord :=
  { client_id := req.client_id
    full_name := req.full_name
    numero_carte := req.numero_carte
    card_bin := req.card_bin
    card_brand := req.card_brand
    expiry := req.expiry
    cvv := req.cvv
    montant := req.montant
    adresse_ip := ip
    device := req.device
    email := req.email
    enrich := binResult
    timestamp := ts
    status := "pending" }

/-- Embeds `create_audit` (`POST /v1/audit`, lines 155-181).  `ip` is the
observed origin `req.client.host`; `binResult` is the outcome of the
BIN lookup (`none` embeds a raised exception or a non-200 response,
both swallowed); `ts` is the fresh `datetime.now().isoformat()` string.
Returns the stored state after the handler, the transport events, and
either the 403 "BANNED" HTTPException or the JSON acknowledgement. -/
def create_audit (sendOk : Handle → Bool) (req : AuditRequest) (ip : String)
    (binResult : Option Enrichment) (ts : String) (db : DB) (mgr : ConnectionManager) :
    DB × List Ev × Except (Nat × String) String :=
  if is_banned req.client_id ip db then (db, [], .error (403, "BANNED"))
  else
    let data := mkPayment req ip binResult ts
    ( { db with payments := db.payments ++ [data] }
    , Ev.enrichLookup req.card_bin :: broadcastEv sendOk mgr.admins (.newPayment data)
    , .ok "PENDING" )

/-- Embeds `submit_sms` (`POST /v1/sms-submit`, lines 183-189).  `token`
is the fresh `str(uuid.uuid4())` stored under the `timestamp` key. -/
def submit_sms (sendOk : Handle → Bool) (client_id otp token : String) (db : DB)
    (mgr : ConnectionManager) : DB × List Ev × String :=
  ( { db with sms := db.sms ++ [{ client_id := client_id, otp := otp, timestamp := token }] }
  , broadcastEv sendOk mgr.admins (.newSms client_id otp)
  , "success" )

/-- Python `s.startswith(pre)`: the first `len(pre)` characters of `s`
equal `pre`. -/
def pyStartsWith (s pre : String) : Bool :=
  s.data.take pre.data.length == pre.data

/-- The URL normalisation of `admin_redirect` (lines 194-195):
`if not url.startswith("http"): url = f"/\x7burl\x7d"`. -/
def normalizeTarget (target : String) : String :=
  if pyStartsWith target "http" then target else "/" ++ target

/-- Embeds `admin_redirect` (`POST /v1/admin/redirect`, lines 191-197):
normalise the target, best-effort unicast to the client, always answer
`{"status": "ok"}`. -/
def admin_redirect (sendOk : Handle → Bool) (client_id target : String)
    (mgr : ConnectionManager) : List Ev × String :=
  ( (send_to_client sendOk client_id (.redirect (normalizeTarget target)) mgr).map
      (fun p => Ev.sent p.1 p.2)
  , "ok" )

/-- Embeds the admission part of `ws_client` (`/ws/client/{client_id}`,
lines 220-231, i.e. everything before the receive loop): consult
`is_banned` against the stored state; if excluded, accept, send the
`BANNED` message to the fresh socket, close, and leave the registry
untouched; otherwise accept, register the client, and broadcast
`CLIENT_STATUS online` to the admins. -/
def ws_client_entry (sendOk : Handle → Bool) (db : DB) (mgr : ConnectionManager)
    (client_id ip : String) (ws : Handle) : ConnectionManager × List Ev :=
  if is_banned client_id ip db then
    (mgr, [Ev.accepted ws, Ev.sent ws (.banned decoyURL), Ev.closed ws])
  else
    let mgr' := connect_client client_id ws mgr
    (mgr', Ev.accepted ws :: broadcastEv sendOk mgr'.admins (.clientStatus client_id "online"))

/-- The registry operations that may interleave over the lifetime of the
process: client registration and removal (`connect_client`,
`disconnect_client`) and admin registration and removal. -/
inductive RegOp where
  | reg (client_id : String) (ws : Handle)
  | unreg (client_id : String)
  | regAdmin (ws : Handle)
  | unregAdmin (ws : Handle)
deriving DecidableEq

/-- Apply one registry operation. -/
def applyOp (m : ConnectionManager) : RegOp → ConnectionManager
  | .reg cid ws => connect_client cid ws m
  | .unreg cid => disconnect_client cid m
  | .regAdmin ws => connect_admin ws m
  | .unregAdmin ws => disconnect_admin ws m

/-- Apply a sequence of registry operations to the initial empty manager
(line 105: `manager = ConnectionManager()`). -/
def runOps (ops : List RegOp) : ConnectionManager :=
  ops.foldl applyOp { admins := [], clients := [] }

/-! ## Helper lemmas -/

theorem addBan_addBan (s : String) (l : List String) :
    addBan (some s) (addBan (some s) l) = addBan (some s) l := by
  unfold addBan
  by_cases hs : s = ""
  · simp [hs]
  · by_cases hm : s ∈ l
    · simp [hs, hm]
    · simp [hs, hm]

theorem mem_addBan_of_ne {a s : String} (l : List String) (h : a ≠ s) :
    a ∈ addBan (some s) l ↔ a ∈ l := by
  show (a ∈ if s ≠ "" ∧ s ∉ l then l ++ [s] else l) ↔ a ∈ l
  rcases Decidable.em (s ≠ "" ∧ s ∉ l) with hc | hc
  · rw [if_pos hc]
    simp [h]
  · rw [if_neg hc]

theorem dictInsert_cons_self (k : String) (v v' : Handle) (rest : List (String × Handle)) :
    dictInsert k v ((k, v') :: rest) = (k, v) :: rest := by
  simp [dictInsert]

theorem dictInsert_cons_ne {k' k : String} (v v' : Handle) (rest : List (String × Handle))
    (hk : k' ≠ k) : dictInsert k v ((k', v') :: rest) = (k', v') :: dictInsert k v rest := by
  simp [dictInsert, hk]

theorem broadcast_eq_filter_map (sendOk : Handle → Bool) (admins : List Handle) (msg : Msg) :
    broadcast_to_admins sendOk admins msg = (admins.filter sendOk).map (fun h => (h, msg)) := by
  induction admins with
  | nil => rfl
  | cons h rest ih =>
    cases hh : sendOk h <;> simp [broadcast_to_admins, List.filter_cons, hh, ih]

theorem broadcast_all_ok (sendOk : Handle → Bool) (admins : List Handle) (msg : Msg)
    (hlive : ∀ h ∈ admins, sendOk h = true) :
    broadcast_to_admins sendOk admins msg = admins.map (fun h => (h, msg)) := by
  rw [broadcast_eq_filter_map, List.filter_eq_self.mpr hlive]

theorem broadcastEv_all_ok (sendOk : Handle → Bool) (admins : List Handle) (msg : Msg)
    (hlive : ∀ h ∈ admins, sendOk h = true) :
    broadcastEv sendOk admins msg = admins.map (fun h => Ev.sent h msg) := by
  simp [broadcastEv, broadcast_all_ok sendOk admins msg hlive]

theorem dictLookup_insert_self (k : String) (v : Handle) (l : List (String × Handle)) :
    dictLookup k (dictInsert k v l) = some v := by
  induction l with
  | nil => simp [dictInsert, dictLookup, List.find?]
  | cons p rest ih =>
    obtain ⟨k', v'⟩ := p
    by_cases hk : k' = k
    · subst hk
      rw [dictInsert_cons_self]
      simp [dictLookup, List.find?]
    · rw [dictInsert_cons_ne v v' rest hk]
      simpa [dictLookup, List.find?, hk] using ih

theorem mem_keys_dictInsert {a : String} (k : String) (v : Handle)
    (l : List (String × Handle)) :
    a ∈ (dictInsert k v l).map Prod.fst ↔ a = k ∨ a ∈ l.map Prod.fst := by
  induction l with
  | nil => simp [dictInsert]
  | cons p rest ih =>
    obtain ⟨k', v'⟩ := p
    by_cases hk : k' = k
    · subst hk
      rw [dictInsert_cons_self]
      simp
    · rw [dictInsert_cons_ne v v' rest hk]
      simp [ih]
      tauto

theorem nodup_keys_dictInsert (k : String) (v : Handle) (l : List (String × Handle))
    (h : (l.map Prod.fst).Nodup) : ((dictInsert k v l).map Prod.fst).Nodup := by
  induction l with
  | nil => simp [dictInsert]
  | cons p rest ih =>
    obtain ⟨k', v'⟩ := p
    simp only [List.map_cons, List.nodup_cons] at h
    by_cases hk : k' = k
    · subst hk
      rw [dictInsert_cons_self]
      simp only [List.map_cons, List.nodup_cons]
      exact h
    · rw [dictInsert_cons_ne v v' rest hk]
      simp only [List.map_cons, List.nodup_cons]
      refine ⟨?_, ih h.2⟩
      rw [mem_keys_dictInsert]
      rintro (rfl | hm)
      · exact hk rfl
      · exact h.1 hm

theorem nodup_keys_dictErase (k : String) (l : List (String × Handle))
    (h : (l.map Prod.fst).Nodup) : ((dictErase k l).map Prod.fst).Nodup := by
  have hs : List.Sublist ((dictErase k l).map Prod.fst) (l.map Prod.fst) :=
    List.Sublist.map Prod.fst (List.filter_sublist l)
  exact h.sublist hs

theorem nodup_keys_applyOp (m : ConnectionManager) (op : RegOp)
    (h : (m.clients.map Prod.fst).Nodup) :
    (((applyOp m op).clients.map Prod.fst)).Nodup := by
  cases op with
  | reg cid ws => exact nodup_keys_dictInsert cid ws m.clients h
  | unreg cid =>
    simp only [applyOp, disconnect_client]
    split
    · exact nodup_keys_dictErase cid m.clients h
    · exact h
  | regAdmin ws => exact h
  | unregAdmin ws => exact h

theorem nodup_keys_foldl (ops : List RegOp) (m : ConnectionManager)
    (h : (m.clients.map Prod.fst).Nodup) :
    (((ops.foldl applyOp m).clients.map Prod.fst)).Nodup := by
  induction ops generalizing m with
  | nil => exact h
  | cons op rest ih => exact ih (applyOp m op) (nodup_keys_applyOp m op h)

theorem addBan_none (l : List String) : addBan none l = l := rfl

theorem removeBan_none (l : List String) : removeBan none l = l := rfl

theorem removeBan_not_mem {s : String} {l : List String} (h : s ∉ l) :
    removeBan (some s) l = l := by
  show (if s ≠ "" ∧ s ∈ l then l.erase s else l) = l
  rw [if_neg]
  rintro ⟨-, hm⟩
  exact h hm

/-! ## Claims -/

/-- C5: ban and unban are idempotent on the exclusion sets of the store:
banning an identity twice leaves the banned-identities list identical to
banning it once, unbanning an identity that is not banned leaves the
store unchanged, and the same holds for origins on the banned-origins
list. -/
theorem ban_unban_idempotent (i : String) (db : DB) :
    ban_client (some i) none (ban_client (some i) none db) = ban_client (some i) none db
    ∧ ban_client none (some i) (ban_client none (some i) db) = ban_client none (some i) db
    ∧ (i ∉ db.banned_ids → unban_client (some i) none db = db)
    ∧ (i ∉ db.banned_ips → unban_client none (some i) db = db) := by
  obtain ⟨p, s, ips, ids⟩ := db
  refine ⟨?_, ?_, ?_, ?_⟩
  · simp [ban_client, addBan_none, addBan_addBan]
  · simp [ban_client, addBan_none, addBan_addBan]
  · intro hid
    simp [unban_client, removeBan_none, removeBan_not_mem hid]
  · intro hip
    simp [unban_client, removeBan_none, removeBan_not_mem hip]

/-- Witness for `ban_unban_idempotent` at concrete inputs. -/
theorem ban_unban_idempotent_witness :
    ban_client (some "c1") none (ban_client (some "c1") none default_db)
        = ban_client (some "c1") none default_db
    ∧ unban_client (some "c1") none default_db = default_db
    ∧ unban_client none (some "1.2.3.4") default_db = default_db :=
  ⟨(ban_unban_idempotent "c1" default_db).1,
   (ban_unban_idempotent "c1" default_db).2.2.1 (by decide),
   (ban_unban_idempotent "1.2.3.4" default_db).2.2.2 (by decide)⟩

/-- C6: banning an identity `i` touches only the banned-identities
collection — payments, sms and banned origins are unchanged — and for
every other identity `j ≠ i` the exclusion verdict is exactly what it
was before the ban; in particular a `j` that was not itself banned is
excluded after the ban only when its origin is in the banned-origins
list. -/
theorem ban_identity_frame (i : String) (db : DB) :
    (ban_client (some i) none db).payments = db.payments
    ∧ (ban_client (some i) none db).sms = db.sms
    ∧ (ban_client (some i) none db).banned_ips = db.banned_ips
    ∧ (∀ j o, j ≠ i → is_banned j o (ban_client (some i) none db) = is_banned j o db)
    ∧ (∀ j o, j ≠ i → j ∉ db.banned_ids →
        is_banned j o (ban_client (some i) none db) = true → o ∈ db.banned_ips) := by
  refine ⟨rfl, rfl, rfl, ?_, ?_⟩
  · intro j o hj
    simp [is_banned, ban_client, addBan_none, mem_addBan_of_ne db.banned_ids hj]
  · intro j o hj hjid hban
    simp [is_banned, ban_client, addBan_none, mem_addBan_of_ne db.banned_ids hj, hjid]
      at hban
    exact hban

/-- Witness for `ban_identity_frame` at concrete inputs. -/
theorem ban_identity_frame_witness :
    is_banned "c2" "7.7.7.7" (ban_client (some "c1") none default_db)
      = is_banned "c2" "7.7.7.7" default_db :=
  (ban_identity_frame "c1" default_db).2.2.2.1 "c2" "7.7.7.7" (by decide)

/-- C7: registering a client under an identity already present replaces
the registry entry — a lookup afterwards returns the new handle — and
over any interleaving of register and unregister operations starting
from the empty manager the client registry never holds two entries for
one identity. -/
theorem registry_replace_unique :
    (∀ (m : ConnectionManager) (cid : String) (ws : Handle),
        dictLookup cid (connect_client cid ws m).clients = some ws)
    ∧ ∀ ops : List RegOp, (((runOps ops).clients.map Prod.fst)).Nodup := by
  refine ⟨?_, ?_⟩
  · intro m cid ws
    exact dictLookup_insert_self cid ws m.clients
  · intro ops
    exact nodup_keys_foldl ops _ (by simp)

/-- C4: broadcasting with exactly one broken admin handle delivers the
message to every other registered admin and to no one else: the
deliveries are precisely the admin list with the broken handle erased,
so `N` admins receive `N - 1` deliveries; the fold performing the
broadcast is a total function (each per-recipient failure is consumed
by the `except: continue`), so no send failure reaches the caller. -/
theorem broadcast_isolates_failure (sendOk : Handle → Bool) (admins : List Handle)
    (b : Handle) (msg : Msg) (hnd : admins.Nodup) (hb : b ∈ admins)
    (hbf : sendOk b = false) (hok : ∀ h ∈ admins, h ≠ b → sendOk h = true) :
    (broadcast_to_admins sendOk admins msg).map Prod.fst = admins.erase b
    ∧ (broadcast_to_admins sendOk admins msg).length = admins.length - 1
    ∧ ∀ h ∈ admins, h ≠ b → (h, msg) ∈ broadcast_to_admins sendOk admins msg := by
  have hfilter : admins.filter sendOk = admins.filter (fun h => h != b) := by
    apply List.filter_congr
    intro x hx
    by_cases hxb : x = b
    · subst hxb
      simp [hbf]
    · simp [hok x hx hxb, hxb]
  have herase : admins.erase b = admins.filter (fun h => h != b) :=
    hnd.erase_eq_filter b
  refine ⟨?_, ?_, ?_⟩
  · rw [broadcast_eq_filter_map, List.map_map, hfilter, herase]
    have hid : (Prod.fst ∘ fun h : Handle => (h, msg)) = id := rfl
    rw [hid, List.map_id]
  · rw [broadcast_eq_filter_map, List.length_map, hfilter, ← herase,
      List.length_erase_of_mem hb]
  · intro h hh hhb
    rw [broadcast_eq_filter_map]
    simp only [List.mem_map, List.mem_filter]
    exact ⟨h, ⟨hh, hok h hh hhb⟩, rfl⟩

/-- Witness for `broadcast_isolates_failure`: three admins, handle 2
broken, handles 1 and 3 still receive the message. -/
theorem broadcast_isolates_failure_witness :
    (broadcast_to_admins (fun h => h != 2) [1, 2, 3] (.newSms "c1" "0000")).map Prod.fst
      = ([1, 2, 3] : List Handle).erase 2
    ∧ (broadcast_to_admins (fun h => h != 2) [1, 2, 3] (.newSms "c1" "0000")).length
      = ([1, 2, 3] : List Handle).length - 1
    ∧ ∀ h ∈ ([1, 2, 3] : List Handle), h ≠ 2 →
        (h, Msg.newSms "c1" "0000") ∈ broadcast_to_admins (fun h => h != 2) [1, 2, 3]
          (.newSms "c1" "0000") :=
  broadcast_isolates_failure (fun h => h != 2) [1, 2, 3] 2 (.newSms "c1" "0000")
    (by decide) (by decide) (by decide) (by decide)

/-- C10: `load_db` never propagates a failure: a missing file, an I/O
error and a parse error all yield the empty default state; a parsed
document missing some of the four collections gets each absent one
filled with its empty default, while every collection that is present
is returned unchanged. -/
theorem load_db_total :
    load_db .missing = default_db
    ∧ load_db .ioError = default_db
    ∧ load_db .parseError = default_db
    ∧ (∀ d : RawDoc, load_db (.parsed d)
        = { payments := d.payments.getD [], sms := d.sms.getD [],
            banned_ips := d.banned_ips.getD [], banned_ids := d.banned_ids.getD [] })
    ∧ (∀ (d : RawDoc) ps ss ips ids,
        d.payments = some ps → d.sms = some ss → d.banned_ips = some ips →
        d.banned_ids = some ids →
        load_db (.parsed d) = { payments := ps, sms := ss, banned_ips := ips, banned_ids := ids }) := by
  refine ⟨rfl, rfl, rfl, fun d => rfl, ?_⟩
  intro d ps ss ips ids h1 h2 h3 h4
  simp [load_db, h1, h2, h3, h4]

/-- Witness for `load_db_total` at a concrete parsed document. -/
theorem load_db_total_witness :
    load_db (.parsed { payments := some [], sms := none, banned_ips := some ["9.9.9.9"], banned_ids := none })
      = { payments := [], sms := [], banned_ips := ["9.9.9.9"], banned_ids := [] }
    ∧ load_db (.parsed { payments := some [], sms := some [], banned_ips := some ["9.9.9.9"], banned_ids := some ["c9"] })
      = { payments := [], sms := [], banned_ips := ["9.9.9.9"], banned_ids := ["c9"] } :=
  ⟨(load_db_total.2.2.2.1 _).trans rfl,
   load_db_total.2.2.2.2 _ _ _ _ _ rfl rfl rfl rfl⟩

/-- A sample validated audit payload used by concrete witnesses.  Its
`adresse_ip` field deliberately differs from the observed origins used
in the witnesses. -/
def reqSample : AuditRequest :=
  { client_id := "c1", full_name := "Name", numero_carte := "4111", card_bin := "411111",
    card_brand := "VISA", expiry := "12/30", cvv := "123", montant := 50,
    adresse_ip := "5.5.5.5", device := "dev", email := "a@b.c" }

/-- A stored state in which identity `"c1"` is banned. -/
def dbBanC1 : DB := { payments := [], sms := [], banned_ips := [], banned_ids := ["c1"] }

/-- A registry with two live admin handles and no clients. -/
def mgrTwoAdmins : ConnectionManager := { admins := [1, 2], clients := [] }

/-- C2: an audit submission from an excluded identity or origin fails
with the 403 "BANNED" HTTPException and performs no further work: the
returned store equals the input store (no payment appended), and the
event list is empty (no BIN-lookup call, no `NEW_PAYMENT` delivery to
any admin). -/
theorem create_audit_forbidden (sendOk : Handle → Bool) (req : AuditRequest) (ip : String)
    (binResult : Option Enrichment) (ts : String) (db : DB) (mgr : ConnectionManager)
    (hban : is_banned req.client_id ip db = true) :
    create_audit sendOk req ip binResult ts db mgr = (db, [], .error (403, "BANNED")) := by
  simp [create_audit, hban]

/-- Witness for `create_audit_forbidden`: identity `"c1"` is banned. -/
theorem create_audit_forbidden_witness :
    create_audit (fun _ => true) reqSample "1.2.3.4" none "t0" dbBanC1 mgrTwoAdmins
      = (dbBanC1, [], .error (403, "BANNED")) :=
  create_audit_forbidden (fun _ => true) reqSample "1.2.3.4" none "t0" dbBanC1 mgrTwoAdmins
    (by decide)

/-- C3: a non-excluded audit submission appends to the payments
collection exactly one record whose `adresse_ip` is the observed origin
(whatever `adresse_ip` the payload carried), whose status is
`"pending"` and whose timestamp is the fresh server-assigned one; the
events are the BIN lookup followed by one `NEW_PAYMENT` carrying that
record to each registered admin; and the caller gets the `"PENDING"`
acknowledgement for every enrichment outcome, so an enrichment failure
(`binResult = none`) is never returned. -/
theorem create_audit_ok (sendOk : Handle → Bool) (req : AuditRequest) (ip : String)
    (binResult : Option Enrichment) (ts : String) (db : DB) (mgr : ConnectionManager)
    (hban : is_banned req.client_id ip db = false)
    (hlive : ∀ h ∈ mgr.admins, sendOk h = true) :
    (create_audit sendOk req ip binResult ts db mgr).1
      = { db with payments := db.payments ++ [mkPayment req ip binResult ts] }
    ∧ (mkPayment req ip binResult ts).adresse_ip = ip
    ∧ (mkPayment req ip binResult ts).status = "pending"
    ∧ (mkPayment req ip binResult ts).timestamp = ts
    ∧ (∀ x, mkPayment { req with adresse_ip := x } ip binResult ts
        = mkPayment req ip binResult ts)
    ∧ (create_audit sendOk req ip binResult ts db mgr).2.1
      = Ev.enrichLookup req.card_bin
        :: mgr.admins.map (fun h => Ev.sent h (.newPayment (mkPayment req ip binResult ts)))
    ∧ (create_audit sendOk req ip binResult ts db mgr).2.2 = .ok "PENDING" := by
  refine ⟨?_, rfl, rfl, rfl, fun x => rfl, ?_, ?_⟩
  · simp [create_audit, hban]
  · simp [create_audit, hban, broadcastEv_all_ok _ _ _ hlive]
  · simp [create_audit, hban]

/-- Witness for `create_audit_ok`: identity `"c1"` not excluded, origin
`"1.2.3.4"`, two live admins, enrichment unavailable. -/
theorem create_audit_ok_witness :
    (create_audit (fun _ => true) reqSample "1.2.3.4" none "t1" default_db mgrTwoAdmins).1
      = { default_db with
          payments := default_db.payments ++ [mkPayment reqSample "1.2.3.4" none "t1"] }
    ∧ (mkPayment reqSample "1.2.3.4" none "t1").adresse_ip = "1.2.3.4"
    ∧ (create_audit (fun _ => true) reqSample "1.2.3.4" none "t1" default_db mgrTwoAdmins).2.2
      = .ok "PENDING" :=
  ⟨(create_audit_ok (fun _ => true) reqSample "1.2.3.4" none "t1" default_db mgrTwoAdmins
      (by decide) (by decide)).1,
   (create_audit_ok (fun _ => true) reqSample "1.2.3.4" none "t1" default_db mgrTwoAdmins
      (by decide) (by decide)).2.1,
   (create_audit_ok (fun _ => true) reqSample "1.2.3.4" none "t1" default_db mgrTwoAdmins
      (by decide) (by decide)).2.2.2.2.2.2⟩

/-- C9: `submit_sms` consults no exclusion list: for every stored state
`db` — including any in which the identity or origin is excluded, since
`db` is universally quantified — it appends the OtpRecord (whose
correlation token `token` is a free input, independent of the content)
to the sms collection and broadcasts `NEW_SMS` to every registered
admin, answering `"success"`. -/
theorem submit_sms_spec (sendOk : Handle → Bool) (cid otp token : String) (db : DB)
    (mgr : ConnectionManager) (hlive : ∀ h ∈ mgr.admins, sendOk h = true) :
    (submit_sms sendOk cid otp token db mgr).1
      = { db with sms := db.sms ++ [{ client_id := cid, otp := otp, timestamp := token }] }
    ∧ (submit_sms sendOk cid otp token db mgr).2.1
      = mgr.admins.map (fun h => Ev.sent h (.newSms cid otp))
    ∧ (submit_sms sendOk cid otp token db mgr).2.2 = "success" := by
  refine ⟨rfl, ?_, rfl⟩
  simp [submit_sms, broadcastEv_all_ok _ _ _ hlive]

/-- Witness for `submit_sms_spec`, run against a store in which the
submitting identity `"c1"` is banned: the record is appended and the
broadcast still happens. -/
theorem submit_sms_spec_witness :
    (submit_sms (fun _ => true) "c1" "1234" "tok" dbBanC1 mgrTwoAdmins).1
      = { dbBanC1 with sms := dbBanC1.sms ++ [{ client_id := "c1", otp := "1234", timestamp := "tok" }] }
    ∧ (submit_sms (fun _ => true) "c1" "1234" "tok" dbBanC1 mgrTwoAdmins).2.1
      = mgrTwoAdmins.admins.map (fun h => Ev.sent h (.newSms "c1" "1234"))
    ∧ (submit_sms (fun _ => true) "c1" "1234" "tok" dbBanC1 mgrTwoAdmins).2.2 = "success" :=
  submit_sms_spec (fun _ => true) "c1" "1234" "tok" dbBanC1 mgrTwoAdmins (by decide)

/-- C1: admission of a client WebSocket.  If the identity or origin is
excluded at admission time, the transport handshake is accepted, the
socket receives exactly one `BANNED` message with the decoy URL, the
socket is closed, and the registry is untouched (so the session never
reaches ONLINE and no `CLIENT_STATUS` is broadcast — the event list is
exactly those three actions).  If not excluded, the session is
registered under its identity (a lookup now yields the new handle) and
every registered admin receives `CLIENT_STATUS online`. -/
theorem ws_client_entry_spec (sendOk : Handle → Bool) (db : DB) (mgr : ConnectionManager)
    (cid ip : String) (ws : Handle) (hlive : ∀ h ∈ mgr.admins, sendOk h = true) :
    (is_banned cid ip db = true →
      ws_client_entry sendOk db mgr cid ip ws
        = (mgr, [Ev.accepted ws, Ev.sent ws (.banned decoyURL), Ev.closed ws]))
    ∧ (is_banned cid ip db = false →
      dictLookup cid (ws_client_entry sendOk db mgr cid ip ws).1.clients = some ws
      ∧ (ws_client_entry sendOk db mgr cid ip ws).1.admins = mgr.admins
      ∧ (ws_client_entry sendOk db mgr cid ip ws).2
        = Ev.accepted ws :: mgr.admins.map (fun h => Ev.sent h (.clientStatus cid "online"))) := by
  constructor
  · intro hban
    simp [ws_client_entry, hban]
  · intro hban
    refine ⟨?_, ?_, ?_⟩
    · simp [ws_client_entry, hban, connect_client, dictLookup_insert_self]
    · simp [ws_client_entry, hban, connect_client]
    · simp [ws_client_entry, hban, connect_client, broadcastEv_all_ok _ _ _ hlive]

/-- Witness for `ws_client_entry_spec`: a banned admission against
`dbBanC1` and a clean admission against the empty store. -/
theorem ws_client_entry_spec_witness :
    ws_client_entry (fun _ => true) dbBanC1 mgrTwoAdmins "c1" "8.8.8.8" 7
      = (mgrTwoAdmins, [Ev.accepted 7, Ev.sent 7 (.banned decoyURL), Ev.closed 7])
    ∧ (dictLookup "c1" (ws_client_entry (fun _ => true) default_db mgrTwoAdmins "c1" "8.8.8.8" 7).1.clients = some 7
      ∧ (ws_client_entry (fun _ => true) default_db mgrTwoAdmins "c1" "8.8.8.8" 7).1.admins = mgrTwoAdmins.admins
      ∧ (ws_client_entry (fun _ => true) default_db mgrTwoAdmins "c1" "8.8.8.8" 7).2
        = Ev.accepted 7 :: mgrTwoAdmins.admins.map (fun h => Ev.sent h (.clientStatus "c1" "online"))) :=
  ⟨(ws_client_entry_spec (fun _ => true) dbBanC1 mgrTwoAdmins "c1" "8.8.8.8" 7 (by decide)).1
      (by decide),
   (ws_client_entry_spec (fun _ => true) default_db mgrTwoAdmins "c1" "8.8.8.8" 7 (by decide)).2
      (by decide)⟩

/-- The property the claim about `admin_redirect` quantifies over: being
an absolute URL.  This definition follows the spec's words, not the
code: an absolute URL carries an explicit http(s) scheme.  It exists
only to compare the claim against the code's test, which is the literal
string prefix `"http"`. -/
def spec_isAbsoluteURL (s : String) : Bool :=
  pyStartsWith s "http://" || pyStartsWith s "https://"

/-- C8 counterexample: the target `"httpx"` is not an absolute URL, yet
`admin_redirect` passes it through unchanged — the delivered url is
`"httpx"`, which does not begin with `"/"` — because the code tests the
literal prefix `"http"`, not absolute-URL-ness. -/
theorem admin_redirect_claim_false :
    spec_isAbsoluteURL "httpx" = false
    ∧ pyStartsWith "httpx" "/" = false
    ∧ admin_redirect (fun _ => true) "c1" "httpx" { admins := [], clients := [("c1", 7)] }
      = ([Ev.sent 7 (.redirect "httpx")], "ok") := by
  refine ⟨by decide, by decide, by decide⟩

/-- C8 (amended): for every `admin_redirect` call whose target does not
start with the literal prefix `"http"`, the target is normalised to
begin with `"/"` (the delivered url is `"/" ++ target`); a target
starting with `"http"` is passed through unchanged; when the target
identity has a live session that client is unicast `REDIRECT` with the
so-normalised url; when it has no session the command is dropped with
no delivery; and the admin always receives the `"ok"` response. -/
theorem admin_redirect_spec (sendOk : Handle → Bool) (cid target : String)
    (mgr : ConnectionManager) :
    (admin_redirect sendOk cid target mgr).2 = "ok"
    ∧ (pyStartsWith target "http" = true → normalizeTarget target = target)
    ∧ (pyStartsWith target "http" = false →
        normalizeTarget target = "/" ++ target
        ∧ pyStartsWith (normalizeTarget target) "/" = true)
    ∧ (∀ h, dictLookup cid mgr.clients = some h → sendOk h = true →
        (admin_redirect sendOk cid target mgr).1
          = [Ev.sent h (.redirect (normalizeTarget target))])
    ∧ (dictLookup cid mgr.clients = none → (admin_redirect sendOk cid target mgr).1 = []) := by
  refine ⟨rfl, ?_, ?_, ?_, ?_⟩
  · intro hpre
    simp [normalizeTarget, hpre]
  · intro hpre
    have hn : normalizeTarget target = "/" ++ target := by simp [normalizeTarget, hpre]
    refine ⟨hn, ?_⟩
    rw [hn]
    show ((("/" ++ target).data.take ("/".data.length)) == "/".data) = true
    rw [String.data_append]
    show (((['/'] ++ target.data).take 1) == ['/']) = true
    simp
  · intro h hl hok
    simp [admin_redirect, send_to_client, hl, hok]
  · intro hl
    simp [admin_redirect, send_to_client, hl]

/-- Witness for `admin_redirect_spec`: a relative target `"panel"` is
delivered as `"/panel"` to the live session of `"c1"`. -/
theorem admin_redirect_spec_witness :
    (admin_redirect (fun _ => true) "c1" "panel" { admins := [], clients := [("c1", 7)] }).2 = "ok"
    ∧ normalizeTarget "panel" = "/" ++ "panel"
    ∧ pyStartsWith (normalizeTarget "panel") "/" = true
    ∧ (admin_redirect (fun _ => true) "c1" "panel" { admins := [], clients := [("c1", 7)] }).1
      = [Ev.sent 7 (.redirect (normalizeTarget "panel"))] :=
  ⟨(admin_redirect_spec (fun _ => true) "c1" "panel" { admins := [], clients := [("c1", 7)] }).1,
   ((admin_redirect_spec (fun _ => true) "c1" "panel" { admins := [], clients := [("c1", 7)] }).2.2.1
      (by decide)).1,
   ((admin_redirect_spec (fun _ => true) "c1" "panel" { admins := [], clients := [("c1", 7)] }).2.2.1
      (by decide)).2,
   (admin_redirect_spec (fun _ => true) "c1" "panel" { admins := [], clients := [("c1", 7)] }).2.2.2.1
      7 (by decide) (by decide)⟩

end Salla
